import Mathlib

/-!
Shallow embedding of the `python-editor-next` front-end sources:
  * `src/editor/codemirror/language-server/signatureHelp.ts`
    (signature-help tooltip state field, its reducer, the view-update
    trigger logic, and the tooltip formatter), together with the custom
    router (`RouterParam`, `parse`, `RouterProvider.navigate`,
    `useRouterParam`) that is part of the same source pack;
  * the settings module (`isValidSettingsObject`, `supportedLanguages`,
    `codeStructureOptions`, `defaultSettings`).

JavaScript-level behaviour (truthiness, `typeof`, strict equality,
property access on `null`, `URLSearchParams`, `encodeURIComponent`) is
modelled explicitly; fallible evaluation is `Except`.
-/

namespace PythonEditor

/-! ## JavaScript option type: `undefined` / `null` / a value -/

/-- A JavaScript optional slot: `undefined`, `null`, or a value. -/
inductive JsOpt (α : Type) where
  | undef
  | null
  | val (a : α)
deriving DecidableEq

/-! ## Language-server payload types (`vscode-languageserver-protocol`) -/

/-- LSP `MarkupContent`: a kind tag and a value string. -/
structure MarkupContent where
  kind : String
  value : String
deriving DecidableEq

/-- LSP documentation payload: `string | MarkupContent`, possibly absent.
The field named `documentation` in the TypeScript sources is called `doc`
here. -/
abbrev DocContent : Type := JsOpt (String ⊕ MarkupContent)

/-- LSP `ParameterInformation`: `label` is `string | [uinteger, uinteger]`. -/
structure ParameterInformation where
  label : String ⊕ (Nat × Nat)
  doc : DocContent
deriving DecidableEq

/-- LSP `SignatureInformation`. -/
structure SignatureInformation where
  label : String
  doc : DocContent
  parameters : JsOpt (List ParameterInformation)
  activeParameter : JsOpt Nat
deriving DecidableEq

/-- LSP `SignatureHelp`. -/
structure SignatureHelp where
  signatures : List SignatureInformation
  activeSignature : JsOpt Nat
  activeParameter : JsOpt Nat
deriving DecidableEq

/-! ## Signature-help tooltip state (`signatureHelp.ts`) -/

/-- The `SignatureChangeEffect` payload of `setSignatureHelpEffect`:
a position and a `SignatureHelp | null` result. -/
structure SignatureChangeEffect where
  pos : Nat
  result : Option SignatureHelp
deriving DecidableEq

/-- The CodeMirror `Tooltip` object built by `reduceSignatureHelpState`:
`pos`, `above: true`, and a `create` thunk that renders
`formatSignatureHelp(result)`; we record the captured `result` as
`createResult`. -/
structure SignatureHelpTooltip where
  pos : Nat
  above : Bool
  createResult : SignatureHelp
deriving DecidableEq

/-- The `SignatureHelpState` held by `signatureHelpTooltipField`. -/
structure SignatureHelpState where
  tooltip : Option SignatureHelpTooltip
  result : Option SignatureHelp
deriving DecidableEq

/-- `reduceSignatureHelpState` (signatureHelp.ts lines 129-161): clear the
state when a tooltip is showing and the effect carries no result; install
a fresh tooltip when the effect carries a result; otherwise keep the state.
`state.tooltip && !effect.result` is object/null truthiness. -/
def reduceSignatureHelpState (state : SignatureHelpState)
    (effect : SignatureChangeEffect) : SignatureHelpState :=
  if state.tooltip.isSome && effect.result.isNone then
    ⟨none, none⟩
  else
    match effect.result with
    | some result => ⟨some ⟨effect.pos, true, result⟩, some result⟩
    | none => state

/-- `signatureHelpTooltipField.create`: `{ result: null, tooltip: null }`. -/
def signatureHelpTooltipFieldCreate : SignatureHelpState := ⟨none, none⟩

/-- A transaction effect as seen by the field update function: either a
`setSignatureHelpEffect` or some unrelated effect. -/
inductive TransactionEffect where
  | setSignatureHelp (e : SignatureChangeEffect)
  | other
deriving DecidableEq

/-- `signatureHelpTooltipField.update`: scan `tr.effects`, return
`reduceSignatureHelpState` on the first `setSignatureHelpEffect`,
else return the state unchanged. -/
def signatureHelpTooltipFieldUpdate (state : SignatureHelpState) :
    List TransactionEffect → SignatureHelpState
  | [] => state
  | TransactionEffect.setSignatureHelp e :: _ => reduceSignatureHelpState state e
  | TransactionEffect.other :: rest => signatureHelpTooltipFieldUpdate state rest

/-- The implicit invariant of the tooltip field: the tooltip is absent
exactly when the result is absent. -/
def tooltipResultInvariant (s : SignatureHelpState) : Prop :=
  s.tooltip = none ↔ s.result = none

instance (s : SignatureHelpState) : Decidable (tooltipResultInvariant s) :=
  inferInstanceAs (Decidable (_ ↔ _))

/-! ## `SignatureHelpView.update` trigger logic -/

/-- The slice of a CodeMirror transaction the update logic reads: whether
`isUserEvent("input")` holds of the last transaction and the inserted
text spans that `changes.iterChanges` yields. -/
structure ModelTransaction where
  isUserEventInput : Bool
  insertedTexts : List String
deriving DecidableEq

/-- The slice of a CodeMirror `ViewUpdate` the update logic reads. -/
structure ModelViewUpdate where
  docChanged : Bool
  selectionSet : Bool
  transactions : List ModelTransaction
deriving DecidableEq

/-- JavaScript runtime errors arising in the embedded code: a `TypeError`
from dereferencing `undefined`/`null`, or a thrown `new Error(msg)`. -/
inductive JsError where
  | typeError
  | errorMsg (msg : String)
deriving DecidableEq

/-- `SignatureHelpView.update` (signatureHelp.ts lines 84-104), modelled as
whether `triggerSignatureHelpRequest` is invoked at least once. Reading
`transactions[transactions.length - 1]` of an empty list and then calling
`.isUserEvent` would throw, hence the `Except`. -/
def signatureHelpViewUpdateTriggers (fieldState : SignatureHelpState)
    (u : ModelViewUpdate) : Except JsError Bool :=
  if (u.docChanged || u.selectionSet) && fieldState.tooltip.isSome then
    Except.ok true
  else if u.docChanged then
    match u.transactions.getLast? with
    | none => Except.error JsError.typeError
    | some last =>
      if last.isUserEventInput then
        Except.ok (last.insertedTexts.any (fun s => s.endsWith "()"))
      else
        Except.ok false
  else
    Except.ok false

/-! ## `formatSignatureHelp` -/

/-- JavaScript truthiness of a documentation slot (`undefined`, `null` and
the empty string are falsy; `MarkupContent` objects are truthy). -/
def jsDocTruthy : DocContent → Bool
  | JsOpt.undef => false
  | JsOpt.null => false
  | JsOpt.val (Sum.inl s) => !(s == "")
  | JsOpt.val (Sum.inr _) => true

/-- `activeSignatureIndex === null ? signatures[0] : signatures[activeSignatureIndex!]`;
out-of-range (or `undefined`) indexing yields `undefined`, and the
destructuring of `undefined` that follows in the source throws. -/
def selectActiveSignature (help : SignatureHelp) : Option SignatureInformation :=
  match help.activeSignature with
  | JsOpt.null => help.signatures.get? 0
  | JsOpt.undef => none
  | JsOpt.val i => help.signatures.get? i

/-- `activeParameterIndex !== undefined && parameters ? parameters[activeParameterIndex] : undefined`.
Arrays (even empty ones) are truthy; `parameters[null]` and out-of-range
indexing are `undefined`. -/
def selectActiveParameter (sig : SignatureInformation) : Option ParameterInformation :=
  match sig.activeParameter, sig.parameters with
  | JsOpt.undef, _ => none
  | _, JsOpt.undef => none
  | _, JsOpt.null => none
  | JsOpt.null, JsOpt.val _ => none
  | JsOpt.val i, JsOpt.val ps => ps.get? i

/-- `activeParameter?.documentation || activeSignature.documentation`. -/
def selectDoc (ap : Option ParameterInformation)
    (sig : SignatureInformation) : DocContent :=
  let apDoc := match ap with
    | some p => p.doc
    | none => JsOpt.undef
  if jsDocTruthy apDoc then apDoc else sig.doc

/-- The DOM node built by `formatHighlightedParameter`; the actual node
construction delegates to `nameFromSignature`, `removeFullyQualifiedName`,
`renderDocumentation` and `wrapWithDocumentationButton`, which live in
modules outside this source pack, so we record the inputs: the signature
label, the highlight range and the chosen documentation. -/
structure RenderedNode where
  label : String
  hlFrom : Nat
  hlTo : Nat
  doc : DocContent
deriving DecidableEq

/-- `formatHighlightedParameter(label, from, to, activeParameterDoc)`. -/
def formatHighlightedParameter (label : String) (f t : Nat)
    (d : DocContent) : RenderedNode :=
  ⟨label, f, t, d⟩

/-- `formatSignatureHelp` (signatureHelp.ts lines 163-194). -/
def formatSignatureHelp (help : SignatureHelp) : Except JsError RenderedNode :=
  match selectActiveSignature help with
  | none => Except.error JsError.typeError
  | some activeSignature =>
    let ap := selectActiveParameter activeSignature
    let d := selectDoc ap activeSignature
    match ap with
    | some p =>
      match p.label with
      | Sum.inr (f, t) =>
        Except.ok (formatHighlightedParameter activeSignature.label f t d)
      | Sum.inl _ => Except.error (JsError.errorMsg "Not supported")
    | none =>
      Except.ok (formatHighlightedParameter activeSignature.label
        activeSignature.label.length activeSignature.label.length d)

/-! ## Settings module (`isValidSettingsObject` and friends) -/

/-- A JavaScript value as far as the settings validator observes it. -/
inductive JsValue where
  | null
  | undef
  | bool (b : Bool)
  | num (n : Int)
  | str (s : String)
  | obj (fields : List (String × JsValue))

/-- JavaScript `typeof`; notoriously, `typeof null` is `"object"`. -/
def jsTypeof : JsValue → String
  | JsValue.null => "object"
  | JsValue.undef => "undefined"
  | JsValue.bool _ => "boolean"
  | JsValue.num _ => "number"
  | JsValue.str _ => "string"
  | JsValue.obj _ => "object"

/-- Field lookup on a JavaScript object (`undefined` when absent). -/
def objField (fields : List (String × JsValue)) (key : String) : JsValue :=
  ((fields.find? (fun kv => kv.1 == key)).map Prod.snd).getD JsValue.undef

/-- JavaScript property access: throws a `TypeError` on `null`/`undefined`,
returns the field (or `undefined`) on objects, `undefined` on (boxed)
primitives, which carry none of the properties read here. -/
def getProp : JsValue → String → Except Unit JsValue
  | JsValue.null, _ => Except.error ()
  | JsValue.undef, _ => Except.error ()
  | JsValue.obj fields, key => Except.ok (objField fields key)
  | JsValue.bool _, _ => Except.ok JsValue.undef
  | JsValue.num _, _ => Except.ok JsValue.undef
  | JsValue.str _, _ => Except.ok JsValue.undef

/-- JavaScript truthiness (`NaN` is not modelled). -/
def jsTruthy : JsValue → Bool
  | JsValue.null => false
  | JsValue.undef => false
  | JsValue.bool b => b
  | JsValue.num n => !(n == 0)
  | JsValue.str s => !(s == "")
  | JsValue.obj _ => true

/-- JavaScript strict equality of an arbitrary value against a string. -/
def jsStrictEqString (v : JsValue) (s : String) : Bool :=
  match v with
  | JsValue.str t => t == s
  | _ => false

/-- A supported language entry. -/
structure Language where
  id : String
  name : String
deriving DecidableEq

/-- `supportedLanguages`: `[en]`, plus the `lol` translation-test entry
that is pushed when `stage === "REVIEW" || process.env.NODE_ENV !== "production"`
(the flag `reviewOrDev`). -/
def supportedLanguages (reviewOrDev : Bool) : List Language :=
  [⟨"en", "English"⟩] ++ (if reviewOrDev then [⟨"lol", "Translation test"⟩] else [])

def minimumFontSize : Nat := 4

def maximumFontSize : Nat := 154

def fontSizeStep : Nat := 3

/-- `codeStructureOptions`. -/
def codeStructureOptions : List String := ["none", "full", "simple"]

/-- JavaScript `Array.prototype.indexOf` of `v` in a string array
(strict equality; `-1` when absent). -/
def jsIndexOf (options : List String) (v : JsValue) : Int :=
  match options.findIdx? (fun o => jsStrictEqString v o) with
  | some i => (i : Int)
  | none => -1

/-- `isValidSettingsObject` (settings module lines 39-54), evaluated with
JavaScript semantics. Note that `typeof null` is `"object"`, so a `null`
input reaches the `object.languageId` read and throws. -/
def isValidSettingsObject (reviewOrDev : Bool) (value : JsValue) :
    Except Unit Bool :=
  if jsTypeof value != "object" then
    Except.ok false
  else
    match getProp value "languageId" with
    | Except.error e => Except.error e
    | Except.ok languageId =>
      if jsTruthy languageId &&
          ((supportedLanguages reviewOrDev).find?
            (fun x => jsStrictEqString languageId x.id)).isNone then
        Except.ok false
      else
        match getProp value "codeStructureHighlight" with
        | Except.error e => Except.error e
        | Except.ok csh =>
          if jsIndexOf codeStructureOptions csh == -1 then
            Except.ok false
          else
            Except.ok true

/-- The `Settings` record shape. -/
structure Settings where
  languageId : String
  fontSize : Int
  codeStructureHighlight : String
deriving DecidableEq

/-- `defaultSettings`; `defaultCodeFontSizePt` is imported from
`../deployment/misc`, which is outside this source pack, so it is a
parameter here (the validator never reads `fontSize`). -/
def defaultSettings (reviewOrDev : Bool) (defaultCodeFontSizePt : Int) : Settings :=
  ⟨((supportedLanguages reviewOrDev).getD 0 ⟨"", ""⟩).id,
   defaultCodeFontSizePt, "full"⟩

/-- A `Settings` record as the JavaScript object the validator receives. -/
def settingsToJsValue (s : Settings) : JsValue :=
  JsValue.obj
    [("languageId", JsValue.str s.languageId),
     ("fontSize", JsValue.num s.fontSize),
     ("codeStructureHighlight", JsValue.str s.codeStructureHighlight)]

/-! ## Router (`RouterParam`, `parse`, `navigate`, `useRouterParam`)

The query-string codec models the browser primitives the router calls:
`encodeURIComponent` percent-encodes the UTF-8 bytes of every character
outside its unescaped set, and `URLSearchParams` splits on `&`, skips
empty segments, splits each segment at the first `=`, and
form-url-decodes keys and values (`+` to space, `%xx` to a byte, then
UTF-8). -/

/-- An anchor-like navigation value (`{ id: string }`). -/
structure Anchor where
  id : String
deriving DecidableEq

/-- The three static `RouterParam` instances: `tab`, `reference`, `explore`. -/
inductive RouterParamId where
  | tab
  | reference
  | explore
deriving DecidableEq

/-- The value type carried by each router parameter (`RouterParam<T>`). -/
def RouterParamType : RouterParamId → Type
  | RouterParamId.tab => String
  | RouterParamId.reference => Anchor
  | RouterParamId.explore => Anchor

/-- The `RouterState` record: `{ tab?, explore?, reference? }`. -/
structure RouterState where
  tab : Option String
  explore : Option Anchor
  reference : Option Anchor
deriving DecidableEq

/-- `RouterParam.get(state)`: `state[this.id]`. -/
def routerParamGet : (p : RouterParamId) → RouterState → Option (RouterParamType p)
  | RouterParamId.tab, s => s.tab
  | RouterParamId.reference, s => s.reference
  | RouterParamId.explore, s => s.explore

/-- The setter returned by `useRouterParam(param)`:
`setState({ ...state, [param.id]: value })`. -/
def useRouterParamSet (s : RouterState) :
    (p : RouterParamId) → Option (RouterParamType p) → RouterState
  | RouterParamId.tab, v => ⟨v, s.explore, s.reference⟩
  | RouterParamId.reference, v => ⟨s.tab, s.explore, v⟩
  | RouterParamId.explore, v => ⟨s.tab, v, s.reference⟩

/-- UTF-8 encoding of a Unicode code point, as a list of byte values. -/
def utf8Bytes (n : Nat) : List Nat :=
  if n < 128 then [n]
  else if n < 2048 then [192 + n / 64, 128 + n % 64]
  else if n < 65536 then [224 + n / 4096, 128 + n / 64 % 64, 128 + n % 64]
  else [240 + n / 262144, 128 + n / 4096 % 64, 128 + n / 64 % 64, 128 + n % 64]

/-- Uppercase hexadecimal digit for a value below 16. -/
def hexDigitChar (n : Nat) : Char :=
  if n < 10 then Char.ofNat (48 + n) else Char.ofNat (55 + n)

/-- Percent-escape of one byte: `%` followed by two hex digits. -/
def percentByte (b : Nat) : List Char :=
  ['%', hexDigitChar (b / 16), hexDigitChar (b % 16)]

/-- The characters `encodeURIComponent` leaves unescaped:
`A-Z a-z 0-9 - _ . ! ~ * ' ( )` (by code point). -/
def uriUnreserved (c : Char) : Bool :=
  let n := c.toNat
  (65 ≤ n && n ≤ 90) || (97 ≤ n && n ≤ 122) || (48 ≤ n && n ≤ 57) ||
    n == 45 || n == 95 || n == 46 || n == 33 || n == 126 ||
    n == 42 || n == 39 || n == 40 || n == 41

/-- `encodeURIComponent`, one character at a time. -/
def encodeURIComponentChar (c : Char) : List Char :=
  if uriUnreserved c then [c] else (utf8Bytes c.toNat).flatMap percentByte

/-- `encodeURIComponent` over a character list. -/
def encodeURIComponent (s : List Char) : List Char :=
  s.flatMap encodeURIComponentChar

/-- Value of a hexadecimal digit character (0 on non-digits; the encoder
only ever produces digits). -/
def hexVal (c : Char) : Nat :=
  let n := c.toNat
  if 48 ≤ n && n ≤ 57 then n - 48
  else if 65 ≤ n && n ≤ 70 then n - 55
  else if 97 ≤ n && n ≤ 102 then n - 87
  else 0

/-- Form-url-decoding of a component to bytes: `%xx` becomes one byte,
`+` becomes a space, any other character contributes its UTF-8 bytes.
A `%` not followed by two characters stays literal, as in the browser. -/
def formDecodeBytes : List Char → List Nat
  | [] => []
  | c :: rest =>
    if c == '%' then
      match rest with
      | h1 :: h2 :: rest2 => (hexVal h1 * 16 + hexVal h2) :: formDecodeBytes rest2
      | [] => utf8Bytes c.toNat
      | [h1] => utf8Bytes c.toNat ++ formDecodeBytes [h1]
    else if c == '+' then 32 :: formDecodeBytes rest
    else utf8Bytes c.toNat ++ formDecodeBytes rest
termination_by l => l.length
decreasing_by all_goals (simp only [List.length_cons]; omega)

/-- UTF-8 decoding of a byte list, by leading-byte ranges (lone or
truncated sequences produce the replacement character; only valid
sequences arise in the proofs). -/
def utf8DecodeChars : List Nat → List Char
  | [] => []
  | b :: b2 :: b3 :: b4 :: rest =>
    if b < 128 then Char.ofNat b :: utf8DecodeChars (b2 :: b3 :: b4 :: rest)
    else if b < 224 then
      Char.ofNat ((b - 192) * 64 + (b2 - 128)) :: utf8DecodeChars (b3 :: b4 :: rest)
    else if b < 240 then
      Char.ofNat ((b - 224) * 4096 + (b2 - 128) * 64 + (b3 - 128)) ::
        utf8DecodeChars (b4 :: rest)
    else
      Char.ofNat ((b - 240) * 262144 + (b2 - 128) * 4096 +
        (b3 - 128) * 64 + (b4 - 128)) :: utf8DecodeChars rest
  | [b, b2, b3] =>
    if b < 128 then Char.ofNat b :: utf8DecodeChars [b2, b3]
    else if b < 224 then
      Char.ofNat ((b - 192) * 64 + (b2 - 128)) :: utf8DecodeChars [b3]
    else if b < 240 then
      [Char.ofNat ((b - 224) * 4096 + (b2 - 128) * 64 + (b3 - 128))]
    else [Char.ofNat 65533]
  | [b, b2] =>
    if b < 128 then Char.ofNat b :: utf8DecodeChars [b2]
    else if b < 224 then [Char.ofNat ((b - 192) * 64 + (b2 - 128))]
    else [Char.ofNat 65533]
  | [b] =>
    if b < 128 then [Char.ofNat b] else [Char.ofNat 65533]

/-- Full form-url-decoding of a component. -/
def decodeURIComponentForm (s : List Char) : List Char :=
  utf8DecodeChars (formDecodeBytes s)

/-- Split a query segment at its first `=` (no `=` means an empty value),
as `URLSearchParams` does. -/
def splitFirstEq : List Char → List Char × List Char
  | [] => ([], [])
  | c :: rest =>
    if c == '=' then ([], rest)
    else
      let kv := splitFirstEq rest
      (c :: kv.1, kv.2)

/-- The decoded key/value pairs a `URLSearchParams` built on `search`
holds, in order. -/
def urlSearchParamsPairs (search : List Char) : List (String × String) :=
  ((List.splitOn '&' search).filter (fun piece => !piece.isEmpty)).map
    (fun piece =>
      (⟨decodeURIComponentForm (splitFirstEq piece).1⟩,
       ⟨decodeURIComponentForm (splitFirstEq piece).2⟩))

/-- `URLSearchParams.get`: the first value stored under `key`, else null. -/
def urlSearchParamsGet (search : List Char) (key : String) : Option String :=
  ((urlSearchParamsPairs search).find? (fun kv => kv.1 == key)).map Prod.snd

/-- `anchorForParam`: `param ? { id: param } : undefined` (the empty
string is falsy). -/
def anchorForParam (p : Option String) : Option Anchor :=
  match p with
  | some s => if s == "" then none else some ⟨s⟩
  | none => none

/-- The router `parse`: read `tab`, `reference` and `explore` from the
query string (`?? undefined` turns null into undefined). -/
def parseRouterState (search : List Char) : RouterState :=
  ⟨urlSearchParamsGet search "tab",
   anchorForParam (urlSearchParamsGet search "explore"),
   anchorForParam (urlSearchParamsGet search "reference")⟩

/-- `serializeValue`: `typeof value === "string" ? value : value.id`. -/
def serializeValue : String ⊕ Anchor → String
  | Sum.inl s => s
  | Sum.inr a => a.id

/-- `Object.entries(newState)` for a `RouterState`, in declaration order. -/
def routerEntries (s : RouterState) : List (String × Option (String ⊕ Anchor)) :=
  [("tab", s.tab.map Sum.inl),
   ("explore", s.explore.map Sum.inr),
   ("reference", s.reference.map Sum.inr)]

/-- Truthiness of an entry value in `navigate`'s `.filter(([_, v]) => !!v)`:
absent fields and empty strings are falsy, anchor objects are truthy. -/
def navEntryTruthy : Option (String ⊕ Anchor) → Bool
  | none => false
  | some (Sum.inl s) => !(s == "")
  | some (Sum.inr _) => true

/-- The key/value pairs `navigate` keeps after the truthiness filter,
with values serialized by `serializeValue`. -/
def navigateKept (s : RouterState) : List (String × String) :=
  ((routerEntries s).filter (fun kv => navEntryTruthy kv.2)).map
    (fun kv =>
      (kv.1, serializeValue ((kv.2).getD (Sum.inl ""))))

/-- The query string `navigate` builds:
`entries.filter(truthy).map(([k, v]) => enc(k) + "=" + enc(serialize(v))).join("&")`. -/
def navigateQuery (s : RouterState) : List Char :=
  List.intercalate ['&']
    ((navigateKept s).map (fun kv =>
      encodeURIComponent kv.1.data ++ '=' :: encodeURIComponent kv.2.data))

/-! ## Theorems: signature-help state -/

/-- Helper: `reduceSignatureHelpState` preserves the tooltip/result
invariant. -/
theorem tooltipResultInvariant_reduce (s : SignatureHelpState)
    (e : SignatureChangeEffect) (h : tooltipResultInvariant s) :
    tooltipResultInvariant (reduceSignatureHelpState s e) := by
  rcases s with ⟨t, r⟩
  rcases e with ⟨pos, res⟩
  unfold tooltipResultInvariant at h ⊢
  cases t <;> cases res <;> simp_all [reduceSignatureHelpState]

/-- C1: a failed signature-help request clears the tooltip — applying a
`setSignatureHelpEffect` whose result is null (as dispatched by the catch
branch of `triggerSignatureHelpRequest`) via `reduceSignatureHelpState`
yields a state whose tooltip is null, whatever the prior state. -/
theorem C1_failed_request_clears_tooltip (s : SignatureHelpState) (pos : Nat) :
    (reduceSignatureHelpState s ⟨pos, none⟩).tooltip = none := by
  rcases s with ⟨t, r⟩
  cases t <;> simp [reduceSignatureHelpState]

/-- C2, counterexample: `reduceSignatureHelpState` is not independent of
the prior state on all state values. On the (unreachable) prior state
`{ tooltip: null, result: someHelp }` a null-result effect returns the
state unchanged, while on a state with a tooltip it returns the cleared
state; the two outputs differ in their `result` field. -/
theorem C2_counterexample :
    reduceSignatureHelpState ⟨none, some ⟨[], JsOpt.null, JsOpt.null⟩⟩ ⟨0, none⟩ ≠
      reduceSignatureHelpState
        ⟨some ⟨0, true, ⟨[], JsOpt.null, JsOpt.null⟩⟩,
         some ⟨[], JsOpt.null, JsOpt.null⟩⟩ ⟨0, none⟩ := by
  decide

/-- C2, amended: on states satisfying the tooltip/result invariant (which
holds of every reachable field state), the state produced by
`reduceSignatureHelpState` depends only on the effect: a non-null result
always installs that result with a tooltip at the effect's position, and
a null result always yields the cleared state. -/
theorem C2_last_response_wins (e : SignatureChangeEffect)
    (s1 s2 : SignatureHelpState)
    (h1 : tooltipResultInvariant s1) (h2 : tooltipResultInvariant s2) :
    reduceSignatureHelpState s1 e = reduceSignatureHelpState s2 e ∧
    (∀ r, e.result = some r →
      reduceSignatureHelpState s1 e = ⟨some ⟨e.pos, true, r⟩, some r⟩) ∧
    (e.result = none → reduceSignatureHelpState s1 e = ⟨none, none⟩) := by
  rcases e with ⟨pos, res⟩
  rcases s1 with ⟨t1, r1⟩
  rcases s2 with ⟨t2, r2⟩
  unfold tooltipResultInvariant at h1 h2
  simp only at h1 h2
  refine ⟨?_, ?_, ?_⟩
  · cases res <;> cases t1 <;> cases t2 <;> simp_all [reduceSignatureHelpState]
  · intro r hr
    cases res <;> cases t1 <;> simp_all [reduceSignatureHelpState]
  · intro hr
    cases res <;> cases t1 <;> simp_all [reduceSignatureHelpState]

/-- C2, witness for the amended theorem at concrete inputs. -/
theorem C2_last_response_wins_witness :
    reduceSignatureHelpState ⟨none, none⟩ ⟨5, none⟩ =
      reduceSignatureHelpState
        ⟨some ⟨1, true, ⟨[], JsOpt.null, JsOpt.null⟩⟩,
         some ⟨[], JsOpt.null, JsOpt.null⟩⟩ ⟨5, none⟩ :=
  (C2_last_response_wins ⟨5, none⟩ ⟨none, none⟩
    ⟨some ⟨1, true, ⟨[], JsOpt.null, JsOpt.null⟩⟩,
     some ⟨[], JsOpt.null, JsOpt.null⟩⟩ (by decide) (by decide)).1

/-- C8: the tooltip/result invariant — tooltip is null iff result is null —
holds in the state produced by `create` and is preserved by the field's
update function (hence by `reduceSignatureHelpState`) for every list of
transaction effects. -/
theorem C8_field_invariant :
    tooltipResultInvariant signatureHelpTooltipFieldCreate ∧
    ∀ (s : SignatureHelpState) (effects : List TransactionEffect),
      tooltipResultInvariant s →
      tooltipResultInvariant (signatureHelpTooltipFieldUpdate s effects) := by
  constructor
  · exact ⟨fun _ => rfl, fun _ => rfl⟩
  · intro s effects h
    induction effects with
    | nil => exact h
    | cons eff rest ih =>
      cases eff with
      | setSignatureHelp e => exact tooltipResultInvariant_reduce s e h
      | other => exact ih

/-- C8, witness at a concrete state and effect list. -/
theorem C8_field_invariant_witness :
    tooltipResultInvariant
      (signatureHelpTooltipFieldUpdate ⟨none, none⟩
        [TransactionEffect.other,
         TransactionEffect.setSignatureHelp ⟨3, some ⟨[], JsOpt.null, JsOpt.null⟩⟩]) :=
  C8_field_invariant.2 ⟨none, none⟩
    [TransactionEffect.other,
     TransactionEffect.setSignatureHelp ⟨3, some ⟨[], JsOpt.null, JsOpt.null⟩⟩]
    (by decide)

/-- C7: `SignatureHelpView.update` never calls
`triggerSignatureHelpRequest` on a view update in which neither
`docChanged` nor `selectionSet` holds. -/
theorem C7_trigger_needs_doc_or_selection_change (st : SignatureHelpState)
    (u : ModelViewUpdate) (hd : u.docChanged = false)
    (hs : u.selectionSet = false) :
    signatureHelpViewUpdateTriggers st u = Except.ok false := by
  unfold signatureHelpViewUpdateTriggers
  rw [hd, hs]
  simp

/-- C7, witness at a concrete quiescent view update. -/
theorem C7_trigger_needs_doc_or_selection_change_witness :
    signatureHelpViewUpdateTriggers ⟨none, none⟩ ⟨false, false, []⟩ =
      Except.ok false :=
  C7_trigger_needs_doc_or_selection_change ⟨none, none⟩ ⟨false, false, []⟩ rfl rfl

/-- C9: `formatSignatureHelp` is partial over the language-server payload:
whenever the selected active signature's selected active parameter has a
string label, it throws `Error("Not supported")`; and `signatures[0]` is
read unguarded, so an empty signatures array (with a null active-signature
index) reaches the throwing path instead of producing a node. -/
theorem C9_format_signature_help_partial :
    (∀ (help : SignatureHelp) (sig : SignatureInformation)
       (p : ParameterInformation) (s : String),
      selectActiveSignature help = some sig →
      selectActiveParameter sig = some p →
      p.label = Sum.inl s →
      formatSignatureHelp help = Except.error (JsError.errorMsg "Not supported")) ∧
    formatSignatureHelp ⟨[], JsOpt.null, JsOpt.null⟩ =
      Except.error JsError.typeError := by
  constructor
  · intro help sig p s hsig hp hl
    unfold formatSignatureHelp
    rw [hsig]
    simp [hp, hl]
  · rfl

/-- C9, witness: a payload whose active parameter label is the string
`"x"` is rejected with `Not supported`. -/
theorem C9_format_signature_help_partial_witness :
    formatSignatureHelp
      ⟨[⟨"f(x)", JsOpt.undef, JsOpt.val [⟨Sum.inl "x", JsOpt.undef⟩],
         JsOpt.val 0⟩], JsOpt.val 0, JsOpt.undef⟩ =
      Except.error (JsError.errorMsg "Not supported") :=
  C9_format_signature_help_partial.1
    ⟨[⟨"f(x)", JsOpt.undef, JsOpt.val [⟨Sum.inl "x", JsOpt.undef⟩],
       JsOpt.val 0⟩], JsOpt.val 0, JsOpt.undef⟩
    ⟨"f(x)", JsOpt.undef, JsOpt.val [⟨Sum.inl "x", JsOpt.undef⟩], JsOpt.val 0⟩
    ⟨Sum.inl "x", JsOpt.undef⟩ "x" rfl rfl rfl

/-! ## Theorems: router parameter setter -/

/-- C4: the setter returned by `useRouterParam(p)` maps `p` to the new
value and agrees with the prior state on every other router parameter. -/
theorem C4_set_param_frame (s : RouterState) (p : RouterParamId)
    (v : Option (RouterParamType p)) :
    routerParamGet p (useRouterParamSet s p v) = v ∧
    ∀ q, q ≠ p →
      routerParamGet q (useRouterParamSet s p v) = routerParamGet q s := by
  constructor
  · cases p <;> rfl
  · intro q hq
    cases p <;> cases q <;> first | rfl | exact absurd rfl hq

/-- C4, witness: setting `tab` leaves `reference` unchanged. -/
theorem C4_set_param_frame_witness :
    routerParamGet RouterParamId.reference
        (useRouterParamSet ⟨some "a", none, some ⟨"r"⟩⟩ RouterParamId.tab
          (some "b")) =
      routerParamGet RouterParamId.reference ⟨some "a", none, some ⟨"r"⟩⟩ :=
  (C4_set_param_frame ⟨some "a", none, some ⟨"r"⟩⟩ RouterParamId.tab
    (some "b")).2 RouterParamId.reference (by decide)

/-! ## Theorems: settings validation -/

/-- C3, counterexample: `isValidSettingsObject(null)` does not return
false — `typeof null` is `"object"`, so the guard passes and the
subsequent `object.languageId` read throws a `TypeError`. -/
theorem C3_counterexample :
    isValidSettingsObject false JsValue.null = Except.error () ∧
    isValidSettingsObject false JsValue.null ≠ Except.ok false :=
  ⟨rfl, fun h => Except.noConfusion h⟩

/-- C3, amended: every value that does not match the `Settings` shape is
rejected with `false` rather than a failure — non-object values, objects
whose truthy `languageId` matches no supported language, and objects whose
`codeStructureHighlight` is none of `"none"`, `"full"`, `"simple"` —
except `null` itself, on which the predicate throws. -/
theorem C3_rejects_malformed (rd : Bool) :
    (∀ v, jsTypeof v ≠ "object" → isValidSettingsObject rd v = Except.ok false) ∧
    (∀ fields, jsTruthy (objField fields "languageId") = true →
      (∀ l ∈ supportedLanguages rd,
        jsStrictEqString (objField fields "languageId") l.id = false) →
      isValidSettingsObject rd (JsValue.obj fields) = Except.ok false) ∧
    (∀ fields,
      (∀ o ∈ codeStructureOptions,
        jsStrictEqString (objField fields "codeStructureHighlight") o = false) →
      isValidSettingsObject rd (JsValue.obj fields) = Except.ok false) ∧
    isValidSettingsObject rd JsValue.null = Except.error () := by
  refine ⟨?_, ?_, ?_, ?_⟩
  · intro v h
    unfold isValidSettingsObject
    rw [if_pos (by simpa [bne_iff_ne] using h)]
  · intro fields htruthy hall
    have hnone : (supportedLanguages rd).find?
        (fun x => jsStrictEqString (objField fields "languageId") x.id) = none :=
      List.find?_eq_none.mpr (fun l hl => by simp [hall l hl])
    simp [isValidSettingsObject, jsTypeof, getProp, htruthy, hnone]
  · intro fields hall
    have hidx : jsIndexOf codeStructureOptions
        (objField fields "codeStructureHighlight") = -1 := by
      unfold jsIndexOf
      rw [List.findIdx?_eq_none_iff.mpr (fun o ho => hall o ho)]
    by_cases hcond : jsTruthy (objField fields "languageId") &&
        ((supportedLanguages rd).find?
          (fun x => jsStrictEqString (objField fields "languageId") x.id)).isNone
    · simp [isValidSettingsObject, jsTypeof, getProp, hcond]
    · simp [isValidSettingsObject, jsTypeof, getProp, hcond, hidx]
  · rfl

/-- C3, witness for the amended theorem: a string input and an object with
an unsupported `languageId` are both rejected with `false`, and `null`
throws. -/
theorem C3_rejects_malformed_witness :
    isValidSettingsObject false (JsValue.str "x") = Except.ok false ∧
    isValidSettingsObject false
        (JsValue.obj [("languageId", JsValue.str "de"),
          ("codeStructureHighlight", JsValue.str "full")]) = Except.ok false :=
  ⟨(C3_rejects_malformed false).1 (JsValue.str "x") (by decide),
   (C3_rejects_malformed false).2.1
     [("languageId", JsValue.str "de"), ("codeStructureHighlight", JsValue.str "full")]
     (by decide) (by decide)⟩

/-- C6: `isValidSettingsObject` accepts every object matching the
`Settings` shape — a supported `languageId`, a numeric `fontSize`, and a
`codeStructureHighlight` among the presets — and in particular accepts
`defaultSettings` (for any default font size, which it never reads). -/
theorem C6_validator_accepts_wellformed :
    (∀ (rd : Bool) (fields : List (String × JsValue)) (id : String) (n : Int)
       (c : String),
      objField fields "languageId" = JsValue.str id →
      id ∈ (supportedLanguages rd).map (fun l => l.id) →
      objField fields "fontSize" = JsValue.num n →
      objField fields "codeStructureHighlight" = JsValue.str c →
      c ∈ codeStructureOptions →
      isValidSettingsObject rd (JsValue.obj fields) = Except.ok true) ∧
    (∀ (rd : Bool) (fontPt : Int),
      isValidSettingsObject rd
        (settingsToJsValue (defaultSettings rd fontPt)) = Except.ok true) := by
  constructor
  · intro rd fields id n c hid hmem hfs hcsh hc
    rcases List.mem_map.mp hmem with ⟨l, hl, hlid⟩
    have hcases : c = "none" ∨ c = "full" ∨ c = "simple" := by
      simpa [codeStructureOptions] using hc
    rcases hcases with rfl | rfl | rfl <;>
      simp [isValidSettingsObject, jsTypeof, getProp, hcsh, jsIndexOf,
        List.findIdx?, jsStrictEqString] <;>
      exact fun _ => ⟨l, hl, by simp [hid, jsStrictEqString, hlid]⟩
  · intro rd fontPt
    cases rd <;> rfl

/-- C6, witness: a concrete well-formed settings object is accepted. -/
theorem C6_validator_accepts_wellformed_witness :
    isValidSettingsObject false
        (JsValue.obj [("languageId", JsValue.str "en"),
          ("fontSize", JsValue.num 18),
          ("codeStructureHighlight", JsValue.str "simple")]) = Except.ok true :=
  C6_validator_accepts_wellformed.1 false
    [("languageId", JsValue.str "en"), ("fontSize", JsValue.num 18),
     ("codeStructureHighlight", JsValue.str "simple")]
    "en" 18 "simple" rfl (by decide) rfl rfl (by decide)

/-- C10: the validator does not require completeness — it accepts
`{ codeStructureHighlight: "full" }`, which lacks `languageId` and
`fontSize` entirely, and its verdict on an object depends only on the
`languageId` and `codeStructureHighlight` fields, so neither the presence
nor the numeric range of `fontSize` is ever checked. -/
theorem C10_validator_ignores_font_size :
    (∀ rd : Bool, isValidSettingsObject rd
      (JsValue.obj [("codeStructureHighlight", JsValue.str "full")]) =
        Except.ok true) ∧
    (∀ (rd : Bool) (fields1 fields2 : List (String × JsValue)),
      objField fields1 "languageId" = objField fields2 "languageId" →
      objField fields1 "codeStructureHighlight" =
        objField fields2 "codeStructureHighlight" →
      isValidSettingsObject rd (JsValue.obj fields1) =
        isValidSettingsObject rd (JsValue.obj fields2)) := by
  constructor
  · intro rd
    cases rd <;> rfl
  · intro rd fields1 fields2 h1 h2
    simp only [isValidSettingsObject, jsTypeof, getProp, h1, h2]

/-- C10, witness: the validator's verdict is unchanged when `fontSize`
moves far out of the configured range. -/
theorem C10_validator_ignores_font_size_witness :
    isValidSettingsObject false
        (JsValue.obj [("fontSize", JsValue.num 1),
          ("codeStructureHighlight", JsValue.str "full")]) =
      isValidSettingsObject false
        (JsValue.obj [("fontSize", JsValue.num 99999),
          ("codeStructureHighlight", JsValue.str "full")]) :=
  C10_validator_ignores_font_size.2 false
    [("fontSize", JsValue.num 1), ("codeStructureHighlight", JsValue.str "full")]
    [("fontSize", JsValue.num 99999), ("codeStructureHighlight", JsValue.str "full")]
    rfl rfl

/-! ## Theorems: router query-string codec -/

/-- Helper: `hexVal` inverts `hexDigitChar` below 16. -/
theorem hexVal_hexDigitChar : ∀ n < 16, hexVal (hexDigitChar n) = n := by decide

/-- Helper: a percent-escaped byte decodes back to itself. -/
theorem hexVal_pair (b : Nat) (hb : b < 256) :
    hexVal (hexDigitChar (b / 16)) * 16 + hexVal (hexDigitChar (b % 16)) = b := by
  rw [hexVal_hexDigitChar _ (by omega), hexVal_hexDigitChar _ (by omega)]
  omega

/-- Helper: UTF-8 bytes of a scalar value are bytes. -/
theorem utf8Bytes_lt (n : Nat) (hn : n < 1114112) : ∀ b ∈ utf8Bytes n, b < 256 := by
  intro b hb
  unfold utf8Bytes at hb
  split_ifs at hb with h1 h2 h3
  · simp at hb; omega
  · simp at hb; rcases hb with rfl | rfl <;> omega
  · simp at hb; rcases hb with rfl | rfl | rfl <;> omega
  · simp at hb; rcases hb with rfl | rfl | rfl | rfl <;> omega

/-- Helper: every `Char` scalar value is below 0x110000. -/
theorem char_toNat_lt (c : Char) : c.toNat < 1114112 := by
  have h := c.valid
  rcases h with h | ⟨h1, h2⟩
  · exact Nat.lt_trans h (by omega)
  · exact h2

/-- Helper: decoding consumes a percent-escaped byte. -/
theorem formDecodeBytes_percentByte (b : Nat) (hb : b < 256) (cs : List Char) :
    formDecodeBytes (percentByte b ++ cs) = b :: formDecodeBytes cs := by
  simp [percentByte, formDecodeBytes, hexVal_pair b hb]

/-- Helper: decoding consumes a run of percent-escaped bytes. -/
theorem formDecodeBytes_percentRun (bs : List Nat) (hbs : ∀ b ∈ bs, b < 256)
    (cs : List Char) :
    formDecodeBytes (bs.flatMap percentByte ++ cs) = bs ++ formDecodeBytes cs := by
  induction bs with
  | nil => simp
  | cons b rest ih =>
    simp only [List.flatMap_cons, List.append_assoc]
    rw [formDecodeBytes_percentByte b (hbs b (by simp)),
      ih (fun x hx => hbs x (by simp [hx]))]
    rfl

/-- Helper: a character that is neither `%` nor `+` decodes to its UTF-8
bytes. -/
theorem formDecodeBytes_cons_plain (c : Char) (cs : List Char)
    (hp : (c == '%') = false) (hq : (c == '+') = false) :
    formDecodeBytes (c :: cs) = utf8Bytes c.toNat ++ formDecodeBytes cs := by
  rw [formDecodeBytes.eq_def]
  simp only [hp, hq]
  simp

/-- Helper: unreserved characters are neither `%` nor `+`. -/
theorem uriUnreserved_facts (c : Char) (h : uriUnreserved c = true) :
    (c == '%') = false ∧ (c == '+') = false := by
  constructor
  · cases hc : c == '%' with
    | false => rfl
    | true => exact absurd (eq_of_beq hc ▸ h) (by decide)
  · cases hc : c == '+' with
    | false => rfl
    | true => exact absurd (eq_of_beq hc ▸ h) (by decide)

/-- Helper: form-decoding inverts one encoded character, at the byte
level. -/
theorem formDecodeBytes_encChar (c : Char) (cs : List Char) :
    formDecodeBytes (encodeURIComponentChar c ++ cs) =
      utf8Bytes c.toNat ++ formDecodeBytes cs := by
  unfold encodeURIComponentChar
  by_cases h : uriUnreserved c
  · rw [if_pos h]
    obtain ⟨hp, hq⟩ := uriUnreserved_facts c h
    exact formDecodeBytes_cons_plain c cs hp hq
  · rw [if_neg h]
    exact formDecodeBytes_percentRun _ (utf8Bytes_lt _ (char_toNat_lt c)) cs

/-- Helper: form-decoding an encoded string yields its UTF-8 bytes. -/
theorem formDecodeBytes_enc (s : List Char) :
    formDecodeBytes (encodeURIComponent s) =
      s.flatMap (fun c => utf8Bytes c.toNat) := by
  induction s with
  | nil => simp [encodeURIComponent, formDecodeBytes]
  | cons c cs ih =>
    simp only [encodeURIComponent, List.flatMap_cons] at *
    rw [formDecodeBytes_encChar, ih]

/-- Helper: decoding a byte below 128 yields that character. -/
theorem utf8DecodeChars_one (b : Nat) (bs : List Nat) (h : b < 128) :
    utf8DecodeChars (b :: bs) = Char.ofNat b :: utf8DecodeChars bs := by
  rcases bs with _ | ⟨x, _ | ⟨y, _ | ⟨z, t⟩⟩⟩ <;> simp [utf8DecodeChars, h]

/-- Helper: decoding a two-byte UTF-8 sequence. -/
theorem utf8DecodeChars_two (b b2 : Nat) (bs : List Nat)
    (h1 : ¬b < 128) (h2 : b < 224) :
    utf8DecodeChars (b :: b2 :: bs) =
      Char.ofNat ((b - 192) * 64 + (b2 - 128)) :: utf8DecodeChars bs := by
  rcases bs with _ | ⟨x, _ | ⟨y, t⟩⟩ <;> simp [utf8DecodeChars, h1, h2]

/-- Helper: decoding a three-byte UTF-8 sequence. -/
theorem utf8DecodeChars_three (b b2 b3 : Nat) (bs : List Nat)
    (h1 : ¬b < 128) (h2 : ¬b < 224) (h3 : b < 240) :
    utf8DecodeChars (b :: b2 :: b3 :: bs) =
      Char.ofNat ((b - 224) * 4096 + (b2 - 128) * 64 + (b3 - 128)) ::
        utf8DecodeChars bs := by
  rcases bs with _ | ⟨x, t⟩ <;> simp [utf8DecodeChars, h1, h2, h3]

/-- Helper: decoding a four-byte UTF-8 sequence. -/
theorem utf8DecodeChars_four (b b2 b3 b4 : Nat) (bs : List Nat)
    (h1 : ¬b < 128) (h2 : ¬b < 224) (h3 : ¬b < 240) :
    utf8DecodeChars (b :: b2 :: b3 :: b4 :: bs) =
      Char.ofNat ((b - 240) * 262144 + (b2 - 128) * 4096 +
        (b3 - 128) * 64 + (b4 - 128)) :: utf8DecodeChars bs := by
  simp [utf8DecodeChars, h1, h2, h3]

/-- Helper: UTF-8 decoding inverts the encoding of one character. -/
theorem utf8DecodeChars_firstChar (c : Char) (bs : List Nat) :
    utf8DecodeChars (utf8Bytes c.toNat ++ bs) = c :: utf8DecodeChars bs := by
  have hlt := char_toNat_lt c
  unfold utf8Bytes
  split_ifs with h1 h2 h3
  · show utf8DecodeChars (c.toNat :: bs) = _
    rw [utf8DecodeChars_one _ _ h1, Char.ofNat_toNat]
  · show utf8DecodeChars ((192 + c.toNat / 64) :: (128 + c.toNat % 64) :: bs) = _
    rw [utf8DecodeChars_two _ _ _ (by omega) (by omega)]
    have hX : (192 + c.toNat / 64 - 192) * 64 + (128 + c.toNat % 64 - 128) =
        c.toNat := by omega
    rw [hX, Char.ofNat_toNat]
  · show utf8DecodeChars ((224 + c.toNat / 4096) :: (128 + c.toNat / 64 % 64) ::
        (128 + c.toNat % 64) :: bs) = _
    rw [utf8DecodeChars_three _ _ _ _ (by omega) (by omega) (by omega)]
    have hX : (224 + c.toNat / 4096 - 224) * 4096 +
        (128 + c.toNat / 64 % 64 - 128) * 64 + (128 + c.toNat % 64 - 128) =
        c.toNat := by omega
    rw [hX, Char.ofNat_toNat]
  · show utf8DecodeChars ((240 + c.toNat / 262144) :: (128 + c.toNat / 4096 % 64) ::
        (128 + c.toNat / 64 % 64) :: (128 + c.toNat % 64) :: bs) = _
    rw [utf8DecodeChars_four _ _ _ _ _ (by omega) (by omega) (by omega)]
    have hX : (240 + c.toNat / 262144 - 240) * 262144 +
        (128 + c.toNat / 4096 % 64 - 128) * 4096 +
        (128 + c.toNat / 64 % 64 - 128) * 64 + (128 + c.toNat % 64 - 128) =
        c.toNat := by omega
    rw [hX, Char.ofNat_toNat]

/-- Helper: UTF-8 decoding inverts the encoding of a string. -/
theorem utf8DecodeChars_flat (s : List Char) :
    utf8DecodeChars (s.flatMap (fun c => utf8Bytes c.toNat)) = s := by
  induction s with
  | nil => simp [utf8DecodeChars]
  | cons c cs ih =>
    simp only [List.flatMap_cons]
    rw [utf8DecodeChars_firstChar, ih]

/-- Helper: form-url-decoding inverts `encodeURIComponent`. -/
theorem decode_encodeURIComponent (s : List Char) :
    decodeURIComponentForm (encodeURIComponent s) = s := by
  unfold decodeURIComponentForm
  rw [formDecodeBytes_enc, utf8DecodeChars_flat]

/-- Helper: encoded output never contains `&` or `=`. -/
theorem encodeURIComponentChar_no_special (c : Char) :
    ∀ d ∈ encodeURIComponentChar c, d ≠ '&' ∧ d ≠ '=' := by
  intro d hd
  unfold encodeURIComponentChar at hd
  split_ifs at hd with h
  · simp at hd
    subst hd
    constructor <;> intro hEq <;> rw [hEq] at h <;> revert h <;> decide
  · rcases List.mem_flatMap.mp hd with ⟨b, hb, hdb⟩
    have hblt : b < 256 := utf8Bytes_lt _ (char_toNat_lt c) b hb
    simp [percentByte] at hdb
    rcases hdb with rfl | rfl | rfl
    · constructor <;> decide
    · exact (by decide : ∀ m < 16, hexDigitChar m ≠ '&' ∧ hexDigitChar m ≠ '=')
        _ (by omega)
    · exact (by decide : ∀ m < 16, hexDigitChar m ≠ '&' ∧ hexDigitChar m ≠ '=')
        _ (by omega)

/-- Helper: `&` does not occur in an encoded component. -/
theorem amp_not_mem_encode (s : List Char) : '&' ∉ encodeURIComponent s := by
  intro h
  rcases List.mem_flatMap.mp h with ⟨c, _, hc⟩
  exact (encodeURIComponentChar_no_special c _ hc).1 rfl

/-- Helper: `=` does not occur in an encoded component. -/
theorem eq_not_mem_encode (s : List Char) : '=' ∉ encodeURIComponent s := by
  intro h
  rcases List.mem_flatMap.mp h with ⟨c, _, hc⟩
  exact (encodeURIComponentChar_no_special c _ hc).2 rfl

/-- Helper: splitting at the first `=` undoes `key ++ "=" ++ value` when
the key contains no `=`. -/
theorem splitFirstEq_append (xs ys : List Char) (h : '=' ∉ xs) :
    splitFirstEq (xs ++ '=' :: ys) = (xs, ys) := by
  induction xs with
  | nil => simp [splitFirstEq]
  | cons x xt ih =>
    have hx : (x == '=') = false := by
      have hne : x ≠ '=' := fun he => h (he ▸ List.mem_cons_self x xt)
      exact beq_eq_false_iff_ne.mpr hne
    simp only [List.cons_append, splitFirstEq, hx, List.append_eq,
      Bool.false_eq_true, if_false]
    rw [ih (fun hm => h (List.mem_cons_of_mem _ hm))]

/-- Helper: parsing the query string built from a list of key/value pairs
recovers exactly those pairs. -/
theorem urlSearchParamsPairs_build (kept : List (String × String)) :
    urlSearchParamsPairs (List.intercalate ['&']
      (kept.map (fun kv =>
        encodeURIComponent kv.1.data ++ '=' :: encodeURIComponent kv.2.data))) =
      kept := by
  cases kept with
  | nil => rfl
  | cons k0 krest =>
    have hsplit : List.splitOn '&' (List.intercalate ['&']
        ((k0 :: krest).map (fun kv =>
          encodeURIComponent kv.1.data ++ '=' :: encodeURIComponent kv.2.data))) =
        (k0 :: krest).map (fun kv =>
          encodeURIComponent kv.1.data ++ '=' :: encodeURIComponent kv.2.data) := by
      apply List.splitOn_intercalate
      · intro l hl
        rcases List.mem_map.mp hl with ⟨kv, _, rfl⟩
        intro hmem
        rcases List.mem_append.mp hmem with hmem | hmem
        · exact amp_not_mem_encode _ hmem
        · rcases List.mem_cons.mp hmem with hmem | hmem
          · exact absurd hmem (by decide)
          · exact amp_not_mem_encode _ hmem
      · simp
    unfold urlSearchParamsPairs
    rw [hsplit]
    rw [List.filter_eq_self.mpr]
    · rw [List.map_map]
      have hpt : ∀ kv : String × String,
          ((fun piece =>
              ((⟨decodeURIComponentForm (splitFirstEq piece).1⟩ : String),
               (⟨decodeURIComponentForm (splitFirstEq piece).2⟩ : String))) ∘
            (fun kv : String × String =>
              encodeURIComponent kv.1.data ++ '=' :: encodeURIComponent kv.2.data))
            kv = kv := by
        intro kv
        simp only [Function.comp]
        rw [splitFirstEq_append _ _ (eq_not_mem_encode _)]
        rw [decode_encodeURIComponent, decode_encodeURIComponent]
      calc ((k0 :: krest).map _) = (k0 :: krest).map id := List.map_congr_left
              (fun kv _ => hpt kv)
        _ = k0 :: krest := List.map_id _
    · intro piece hpiece
      rcases List.mem_map.mp hpiece with ⟨kv, _, rfl⟩
      cases henc : encodeURIComponent kv.1.data with
      | nil => simp [henc]
      | cons a as => simp [henc]

/-- C5, counterexample: router state does not always round-trip through
the URL. A state whose `tab` is the empty string is dropped by `navigate`'s
truthiness filter, so parsing the built query string yields a different
state. -/
theorem C5_counterexample :
    parseRouterState (navigateQuery ⟨some "", none, none⟩) ≠
      ⟨some "", none, none⟩ := by
  decide

/-- C5, amended: for every `RouterState` whose set fields are non-empty
strings (a `tab` value other than `""` and anchors with non-empty ids),
parsing the query string that `navigate` builds (entries filtered by
truthiness, serialized with `serializeValue`, URL-encoded and joined with
`&`) yields the original state. States carrying an empty-string value are
flattened to the absent field instead: the entry is dropped by `navigate`'s
truthiness filter (empty `tab`) or by `anchorForParam` on parse (empty
anchor id). -/
theorem C5_roundtrip (s : RouterState)
    (ht : s.tab ≠ some "")
    (he : s.explore ≠ some ⟨""⟩)
    (hr : s.reference ≠ some ⟨""⟩) :
    parseRouterState (navigateQuery s) = s := by
  rcases s with ⟨t, e, r⟩
  have hpairs : urlSearchParamsPairs (navigateQuery ⟨t, e, r⟩) =
      navigateKept ⟨t, e, r⟩ := by
    unfold navigateQuery
    exact urlSearchParamsPairs_build _
  rcases t with _ | ts
  · rcases e with _ | ⟨⟨eid⟩⟩
    · rcases r with _ | ⟨⟨rid⟩⟩
      · simp [parseRouterState, urlSearchParamsGet, hpairs, navigateKept,
          routerEntries, navEntryTruthy, anchorForParam, serializeValue,
          List.find?]
      · have hrs : (rid == "") = false := beq_eq_false_iff_ne.mpr
          (by simpa using hr)
        simp [parseRouterState, urlSearchParamsGet, hpairs, navigateKept,
          routerEntries, navEntryTruthy, anchorForParam, serializeValue,
          List.find?, hrs]
    · rcases r with _ | ⟨⟨rid⟩⟩
      · have hes : (eid == "") = false := beq_eq_false_iff_ne.mpr
          (by simpa using he)
        simp [parseRouterState, urlSearchParamsGet, hpairs, navigateKept,
          routerEntries, navEntryTruthy, anchorForParam, serializeValue,
          List.find?, hes]
      · have hes : (eid == "") = false := beq_eq_false_iff_ne.mpr
          (by simpa using he)
        have hrs : (rid == "") = false := beq_eq_false_iff_ne.mpr
          (by simpa using hr)
        simp [parseRouterState, urlSearchParamsGet, hpairs, navigateKept,
          routerEntries, navEntryTruthy, anchorForParam, serializeValue,
          List.find?, hes, hrs]
  · have hts : (ts == "") = false := beq_eq_false_iff_ne.mpr
      (by simpa using ht)
    rcases e with _ | ⟨⟨eid⟩⟩
    · rcases r with _ | ⟨⟨rid⟩⟩
      · simp [parseRouterState, urlSearchParamsGet, hpairs, navigateKept,
          routerEntries, navEntryTruthy, anchorForParam, serializeValue,
          List.find?, hts]
      · have hrs : (rid == "") = false := beq_eq_false_iff_ne.mpr
          (by simpa using hr)
        simp [parseRouterState, urlSearchParamsGet, hpairs, navigateKept,
          routerEntries, navEntryTruthy, anchorForParam, serializeValue,
          List.find?, hts, hrs]
    · rcases r with _ | ⟨⟨rid⟩⟩
      · have hes : (eid == "") = false := beq_eq_false_iff_ne.mpr
          (by simpa using he)
        simp [parseRouterState, urlSearchParamsGet, hpairs, navigateKept,
          routerEntries, navEntryTruthy, anchorForParam, serializeValue,
          List.find?, hts, hes]
      · have hes : (eid == "") = false := beq_eq_false_iff_ne.mpr
          (by simpa using he)
        have hrs : (rid == "") = false := beq_eq_false_iff_ne.mpr
          (by simpa using hr)
        simp [parseRouterState, urlSearchParamsGet, hpairs, navigateKept,
          routerEntries, navEntryTruthy, anchorForParam, serializeValue,
          List.find?, hts, hes, hrs]

/-- C5, witness for the amended round-trip at a concrete state with
characters that need percent-encoding. -/
theorem C5_roundtrip_witness :
    parseRouterState (navigateQuery ⟨some "a b", some ⟨"x/y"⟩, none⟩) =
      ⟨some "a b", some ⟨"x/y"⟩, none⟩ :=
  C5_roundtrip ⟨some "a b", some ⟨"x/y"⟩, none⟩ (by decide) (by decide)
    (by decide)

end PythonEditor
